import Mathlib

/-!
Verification of the brpc echo example (client.cpp + server.cpp) as a shallow
embedding in Lean 4.  Attachments are modelled as byte lists, protobuf string
fields as Lean strings, C++ `int` results as `Int`.  The external RPC
framework (transport, parsing, server start) is modelled by function
parameters, since it is an external collaborator of this example.
-/

namespace BrpcEcho

/-- Protobuf message `example.EchoRequest`: a single `message` string field. -/
structure EchoRequest where
  message : String
deriving Repr, DecidableEq

/-- Protobuf message `example.EchoResponse`: a single `message` string field. -/
structure EchoResponse where
  message : String
deriving Repr, DecidableEq

/-- Server-side view of `brpc::Controller` as used by the `Echo` handler:
log id, peer addresses, and the two attachment buffers. -/
structure ServerController where
  log_id : Int
  remote_side : String
  local_side : String
  request_attachment : List Nat
  response_attachment : List Nat
deriving Repr, DecidableEq

/-- `brpc::ClosureGuard`: holds the closure it was constructed with until
released; the handler never releases it. -/
structure ClosureGuard where
  held : Option Unit
deriving Repr, DecidableEq

/-- Constructing `brpc::ClosureGuard done_guard(done)`. -/
def ClosureGuard.construct (done : Option Unit) : ClosureGuard :=
  { held := done }

/-- Guard destruction at scope exit: runs the held closure if still held,
returning the updated count of `done->Run()` invocations. -/
def ClosureGuard.onScopeExit (g : ClosureGuard) (runs : Nat) : Nat :=
  match g.held with
  | some _ => runs + 1
  | none => runs

/-- Rendering of an attachment buffer when streamed to the log. -/
def attachmentToString (a : List Nat) : String :=
  toString a

/-- Everything `EchoServiceImpl::Echo` can touch: the request, the response,
the controller, the number of times `done->Run()` fired, and the log lines
emitted. -/
structure EchoResult where
  request : EchoRequest
  response : EchoResponse
  cntl : ServerController
  doneRuns : Nat
  log : List String
deriving Repr, DecidableEq

/-- `example::EchoServiceImpl::Echo` (server.cpp lines 52-99): construct a
`ClosureGuard` on `done`, log the request, copy `request->message()` into the
response, and if `FLAGS_echo_attachment` is set append the request attachment
to the response attachment; the guard fires `done->Run()` at scope exit. -/
def EchoServiceImpl.Echo (flags_echo_attachment : Bool)
    (cntl0 : ServerController) (request : EchoRequest)
    (response0 : EchoResponse) (done : Option Unit) : EchoResult :=
  let done_guard := ClosureGuard.construct done
  let logLine :=
    "Received request[log_id=" ++ toString cntl0.log_id ++ "] from "
      ++ cntl0.remote_side ++ " to " ++ cntl0.local_side ++ ": "
      ++ request.message ++ " (attached="
      ++ attachmentToString cntl0.request_attachment ++ ")"
  let response := { response0 with message := request.message }
  let cntl :=
    if flags_echo_attachment then
      { cntl0 with
          response_attachment :=
            cntl0.response_attachment ++ cntl0.request_attachment }
    else cntl0
  let doneRuns := done_guard.onScopeExit 0
  { request := request, response := response, cntl := cntl,
    doneRuns := doneRuns, log := [logLine] }

/-- A fresh server controller for a newly dispatched call: the response
attachment buffer starts empty, the request attachment holds the bytes that
arrived on the wire. -/
def freshServerController (log_id : Int) (remoteSide localSide : String)
    (A : List Nat) : ServerController :=
  { log_id := log_id, remote_side := remoteSide, local_side := localSide,
    request_attachment := A, response_attachment := [] }

/-- Handling one freshly dispatched call with payload `P` and attachment `A`:
the framework passes a default-initialized response and a valid `done`. -/
def handleFreshEcho (flags_echo_attachment : Bool) (P : String)
    (A : List Nat) : EchoResult :=
  EchoServiceImpl.Echo flags_echo_attachment
    (freshServerController 0 "" "" A) { message := P } { message := "" }
    (some ())

/-- Client-side gflags (client.cpp lines 26-37). -/
structure ClientFlags where
  attachment : List Nat
  protocol : String
  connection_type : String
  server : String
  load_balancer : String
  timeout_ms : Int
  max_retry : Int
  interval_ms : Int
deriving Repr, DecidableEq

/-- How the external framework completed one synchronous `stub.Echo` call:
the fields of the controller and response the client reads afterwards. -/
structure CallOutcome where
  failed : Bool
  error_text : String
  remote_side : String
  local_side : String
  response_message : String
  response_attachment : List Nat
  latency_us : Int
deriving Repr, DecidableEq

/-- A log line emitted by the client loop, at INFO or WARNING severity. -/
inductive LogEntry where
  | info (line : String)
  | warning (line : String)
deriving Repr, DecidableEq

/-- What one client loop iteration did: the correlation id it claimed, the
request it built, the request attachment it set on the fresh controller, the
`done` argument it passed to `stub.Echo` (NULL means synchronous), and the
log line it emitted. -/
structure IterRecord where
  log_id : Int
  request : EchoRequest
  request_attachment : List Nat
  done_arg : Option Unit
  logEntry : LogEntry
deriving Repr, DecidableEq

/-- One iteration of the client loop body (client.cpp lines 78-108): build a
fresh request with payload "hello world", set the log id, append the
configured attachment to the fresh controller's request attachment, call
`stub.Echo` synchronously (`done` is NULL), then log the outcome. -/
def clientTick (flags : ClientFlags) (log_id : Int)
    (outcome : CallOutcome) : IterRecord :=
  let request : EchoRequest := { message := "hello world" }
  let cntl_request_attachment : List Nat := [] ++ flags.attachment
  let entry :=
    if outcome.failed then
      LogEntry.warning outcome.error_text
    else
      LogEntry.info
        ("Received response from " ++ outcome.remote_side ++ " to "
          ++ outcome.local_side ++ ": " ++ outcome.response_message
          ++ " (attached="
          ++ attachmentToString outcome.response_attachment
          ++ ") latency=" ++ toString outcome.latency_us ++ "us")
  { log_id := log_id, request := request,
    request_attachment := cntl_request_attachment,
    done_arg := none, logEntry := entry }

/-- Two's-complement wrap of an integer into the value range of a 32-bit
C++ `int`, [-2^31, 2^31): the practical behavior of `log_id ++` when the
counter overflows. -/
def wrap32 (x : Int) : Int :=
  (x + 2147483648) % 4294967296 - 2147483648

/-- The value of the 32-bit `log_id` counter after `k` post-increments
starting from `l`. -/
def advanceLogId (l : Int) : Nat → Int
  | 0 => l
  | k + 1 => wrap32 (advanceLogId l k + 1)

/-- The client `while (!brpc::IsAskedToQuit())` loop, run for at most `fuel`
iterations.  `outcomes i` is the framework's result for the i-th call,
`askedToQuit i` the quit flag observed at the i-th check; `log_id` is the
32-bit `int` counter, incremented with two's-complement wrap.  Returns the
iteration records, the final `log_id`, and whether the loop terminated (true
exactly when a quit check succeeded within the fuel). -/
def clientLoopAux (flags : ClientFlags) (outcomes : Nat → CallOutcome)
    (askedToQuit : Nat → Bool) :
    Nat → Nat → Int → List IterRecord × Int × Bool
  | 0, _, log_id => ([], log_id, false)
  | fuel + 1, i, log_id =>
    if askedToQuit i then ([], log_id, true)
    else
      let r := clientTick flags log_id (outcomes i)
      let rest := clientLoopAux flags outcomes askedToQuit fuel (i + 1)
        (wrap32 (log_id + 1))
      (r :: rest.1, rest.2.1, rest.2.2)

/-- The client loop from its entry state: first quit check is check 0 and
`int log_id = 0`. -/
def clientLoop (flags : ClientFlags) (outcomes : Nat → CallOutcome)
    (askedToQuit : Nat → Bool) (fuel : Nat) :
    List IterRecord × Int × Bool :=
  clientLoopAux flags outcomes askedToQuit fuel 0 0

/-- `main` of client.cpp: return -1 if `channel.Init` fails, otherwise run
the loop and return 0 after it terminates.  The result is the exit code and
the records of the loop iterations that ran. -/
def clientMain (channelInitResult : Int) (flags : ClientFlags)
    (outcomes : Nat → CallOutcome) (askedToQuit : Nat → Bool)
    (fuel : Nat) : Int × List IterRecord :=
  if channelInitResult ≠ 0 then (-1, [])
  else ((0 : Int), (clientLoop flags outcomes askedToQuit fuel).1)

/-- Server-side gflags (server.cpp lines 25-36). -/
structure ServerFlags where
  echo_attachment : Bool
  port : Int
  listen_addr : String
  idle_timeout_s : Int
  logoff_ms : Int
deriving Repr, DecidableEq

/-- `butil::EndPoint`: an address and a port. -/
structure EndPoint where
  ip : String
  port : Int
deriving Repr, DecidableEq

/-- `butil::IP_ANY`. -/
def IP_ANY : String :=
  "0.0.0.0"

/-- server.cpp lines 131-140: if `FLAGS_listen_addr` is non-empty, parse it
with `butil::str2endpoint` (modelled by the external parameter `p`, `none`
meaning a negative return); otherwise listen on `(IP_ANY, FLAGS_port)`. -/
def resolveListenPoint (flags : ServerFlags)
    (p : String → Option EndPoint) : Option EndPoint :=
  if flags.listen_addr ≠ "" then p flags.listen_addr
  else some { ip := IP_ANY, port := flags.port }

/-- Outcome of the server `main`: the exit code, whether
`RunUntilAskedToQuit` (the serve loop) was entered, and the endpoint served
when it was. -/
structure ServerRun where
  exitCode : Int
  serveEntered : Bool
  servedPoint : Option EndPoint
deriving Repr, DecidableEq

/-- `main` of server.cpp (lines 103-154): -1 if `AddService` fails, -1 if a
non-empty `FLAGS_listen_addr` fails to parse, -1 if `Start` (modelled by the
external parameter `start`, applied to the endpoint and
`options.idle_timeout_sec`) fails; otherwise enter the serve loop and exit 0
on quit. -/
def serverMain (flags : ServerFlags) (addServiceResult : Int)
    (p : String → Option EndPoint) (start : EndPoint → Int → Int) :
    ServerRun :=
  if addServiceResult ≠ 0 then
    { exitCode := -1, serveEntered := false, servedPoint := none }
  else
    match resolveListenPoint flags p with
    | none => { exitCode := -1, serveEntered := false, servedPoint := none }
    | some point =>
      if start point flags.idle_timeout_s ≠ 0 then
        { exitCode := -1, serveEntered := false, servedPoint := none }
      else
        { exitCode := 0, serveEntered := true, servedPoint := some point }

/-- Server startup succeeds: the service was added, the listen point
resolved, and `Start` returned 0. -/
def serverStartupOk (flags : ServerFlags) (addServiceResult : Int)
    (p : String → Option EndPoint) (start : EndPoint → Int → Int) : Prop :=
  addServiceResult = 0 ∧
    ∃ point, resolveListenPoint flags p = some point ∧
      start point flags.idle_timeout_s = 0

/-- Concrete client flags matching the defaults of client.cpp,
with a two-byte attachment. -/
def sampleClientFlags : ClientFlags :=
  { attachment := [104, 105], protocol := "baidu_std", connection_type := "",
    server := "0.0.0.0:8000", load_balancer := "", timeout_ms := 100,
    max_retry := 3, interval_ms := 1000 }

/-- A concrete successful call outcome. -/
def sampleOutcome : CallOutcome :=
  { failed := false, error_text := "", remote_side := "127.0.0.1:8000",
    local_side := "127.0.0.1:50000", response_message := "hello world",
    response_attachment := [104, 105], latency_us := 42 }

/-- A concrete failed call outcome (a timeout). -/
def failedOutcome : CallOutcome :=
  { failed := true, error_text := "reached timeout", remote_side := "",
    local_side := "", response_message := "", response_attachment := [],
    latency_us := 0 }

/-- Concrete server flags with a malformed listen address. -/
def badAddrServerFlags : ServerFlags :=
  { echo_attachment := true, port := 8000, listen_addr := "not an endpoint",
    idle_timeout_s := -1, logoff_ms := 2000 }

instance (flags : ServerFlags) (a : Int) (p : String → Option EndPoint)
    (start : EndPoint → Int → Int) :
    Decidable (serverStartupOk flags a p start) := by
  unfold serverStartupOk
  cases hp : resolveListenPoint flags p with
  | none =>
    apply isFalse
    rintro ⟨-, point, hpt, -⟩
    simp [hp] at hpt
  | some pt =>
    by_cases ha : a = 0
    · by_cases hs : start pt flags.idle_timeout_s = 0
      · exact isTrue ⟨ha, pt, rfl, hs⟩
      · apply isFalse
        rintro ⟨-, point, hpt, hz⟩
        rw [Option.some_inj] at hpt
        exact hs (hpt ▸ hz)
    · exact isFalse fun h => ha h.1

end BrpcEcho

namespace BrpcEcho

/-- C1: with echo-attachment enabled, for any payload `P` and attachment `A`
the response payload equals `P` and the response attachment equals `A`
byte-for-byte: the handler copies the request message into the response
message and appends the request attachment to the (initially empty) response
attachment unchanged. -/
theorem echo_roundtrip_with_attachment (P : String) (A : List Nat)
    (cntl : ServerController) (req : EchoRequest) (resp : EchoResponse) :
    (handleFreshEcho true P A).response.message = P ∧
    (handleFreshEcho true P A).cntl.response_attachment = A ∧
    (EchoServiceImpl.Echo true cntl req resp (some ())).response.message
      = req.message ∧
    (EchoServiceImpl.Echo true cntl req resp (some ())).cntl.response_attachment
      = cntl.response_attachment ++ cntl.request_attachment := by
  refine ⟨rfl, ?_, rfl, rfl⟩
  simp [handleFreshEcho, EchoServiceImpl.Echo, freshServerController]

/-- C2: for every inbound call, including one with an empty payload, the
completion signal `done->Run()` fires exactly once: the `ClosureGuard` runs
the closure exactly once on the handler's only exit path. -/
theorem done_runs_exactly_once (f : Bool) (cntl : ServerController)
    (req : EchoRequest) (resp : EchoResponse) :
    (EchoServiceImpl.Echo f cntl req resp (some ())).doneRuns = 1 ∧
    (EchoServiceImpl.Echo f cntl { message := "" } resp (some ())).doneRuns
      = 1 := by
  exact ⟨rfl, rfl⟩

/-- C4: with echo-attachment disabled the handler performs no write to the
response attachment, so on a fresh call the response attachment is empty
regardless of the request attachment. -/
theorem disabled_attachment_empty (P : String) (A : List Nat)
    (cntl : ServerController) (req : EchoRequest) (resp : EchoResponse) :
    (handleFreshEcho false P A).cntl.response_attachment = [] ∧
    (EchoServiceImpl.Echo false cntl req resp (some ())).cntl.response_attachment
      = cntl.response_attachment := by
  constructor
  · simp [handleFreshEcho, EchoServiceImpl.Echo, freshServerController]
  · simp [EchoServiceImpl.Echo]

/-- C9: frame condition of the handler: the request is never modified, the
controller's request attachment, log id and addresses are unchanged, the only
response field written is `message`, the response attachment is written only
when echo-attachment is enabled, and exactly one diagnostic log line is
emitted. -/
theorem echo_frame_condition (f : Bool) (cntl : ServerController)
    (req : EchoRequest) (resp : EchoResponse) (done : Option Unit) :
    (EchoServiceImpl.Echo f cntl req resp done).request = req ∧
    (EchoServiceImpl.Echo f cntl req resp done).cntl.request_attachment
      = cntl.request_attachment ∧
    (EchoServiceImpl.Echo f cntl req resp done).cntl.log_id = cntl.log_id ∧
    (EchoServiceImpl.Echo f cntl req resp done).cntl.remote_side
      = cntl.remote_side ∧
    (EchoServiceImpl.Echo f cntl req resp done).cntl.local_side
      = cntl.local_side ∧
    (EchoServiceImpl.Echo f cntl req resp done).response
      = { resp with message := req.message } ∧
    (EchoServiceImpl.Echo f cntl req resp done).cntl.response_attachment
      = (if f then cntl.response_attachment ++ cntl.request_attachment
         else cntl.response_attachment) ∧
    (EchoServiceImpl.Echo f cntl req resp done).log.length = 1 := by
  cases f <;>
    exact ⟨rfl, rfl, rfl, rfl, rfl, rfl, rfl, rfl⟩

/-- Wrapped arithmetic absorbs an inner wrap. -/
theorem wrap32_wrap32_add (x y : Int) :
    wrap32 (wrap32 x + y) = wrap32 (x + y) := by
  simp only [wrap32]
  omega

/-- A value already in the 32-bit `int` range is unchanged by the wrap. -/
theorem wrap32_eq_self (x : Int) (h0 : 0 ≤ x) (h1 : x < 2147483648) :
    wrap32 x = x := by
  simp only [wrap32]
  omega

/-- Advancing the counter `k` times from its wrapped successor is advancing
it `k + 1` times. -/
theorem advanceLogId_shift (l : Int) :
    ∀ k : Nat, advanceLogId (wrap32 (l + 1)) k = advanceLogId l (k + 1) := by
  intro k
  induction k with
  | zero => rfl
  | succ n ih => simp only [advanceLogId, ih]

/-- Closed form of the counter started at 0: after `k` increments it holds
the two's-complement wrap of `k`. -/
theorem advanceLogId_from_zero :
    ∀ k : Nat, advanceLogId 0 k = wrap32 (k : Int) := by
  intro k
  induction k with
  | zero => norm_num [advanceLogId, wrap32]
  | succ n ih =>
    have hc : ((n + 1 : Nat) : Int) = (n : Int) + 1 := by push_cast; ring
    simp only [advanceLogId, ih, wrap32_wrap32_add, hc]

/-- Unrolling the client loop when no quit is requested for the first `fuel`
checks: the records are the ticks at the successively incremented (wrapped)
correlation ids, fed the successive outcomes. -/
theorem clientLoopAux_records_eq (flags : ClientFlags)
    (o : Nat → CallOutcome) (q : Nat → Bool) :
    ∀ (fuel i : Nat) (l : Int), (∀ k, k < fuel → q (i + k) = false) →
      (clientLoopAux flags o q fuel i l).1
        = (List.range fuel).map
            (fun k : Nat => clientTick flags (advanceLogId l k) (o (i + k))) := by
  intro fuel
  induction fuel with
  | zero => intro i l _; rfl
  | succ n ih =>
    intro i l h
    have h0 : q i = false := by simpa using h 0 (Nat.succ_pos n)
    have hrec := ih (i + 1) (wrap32 (l + 1)) (fun k hk => by
      have he : i + 1 + k = i + (k + 1) := by omega
      rw [he]
      exact h (k + 1) (by omega))
    simp only [clientLoopAux, h0, Bool.false_eq_true, if_false]
    rw [hrec, List.range_succ_eq_map, List.map_cons, List.map_map]
    congr 1
    apply List.map_congr_left
    intro a _
    have e2 : i + 1 + a = i + (a + 1) := by omega
    simp only [Function.comp_apply, Nat.succ_eq_add_one, advanceLogId_shift,
      e2]

/-- When no quit is ever requested, the loop does `fuel` iterations and never
terminates on its own, whatever the call outcomes are. -/
theorem clientLoopAux_len_eq (flags : ClientFlags) (o : Nat → CallOutcome)
    (q : Nat → Bool) (hq : ∀ k, q k = false) :
    ∀ (fuel i : Nat) (l : Int),
      (clientLoopAux flags o q fuel i l).1.length = fuel ∧
      (clientLoopAux flags o q fuel i l).2.2 = false := by
  intro fuel
  induction fuel with
  | zero => intro i l; exact ⟨rfl, rfl⟩
  | succ n ih =>
    intro i l
    have h0 : q i = false := hq i
    simp only [clientLoopAux, h0, Bool.false_eq_true, if_false,
      List.length_cons]
    exact ⟨by rw [(ih (i + 1) (wrap32 (l + 1))).1],
      (ih (i + 1) (wrap32 (l + 1))).2⟩

/-- C3 counterexample: the correlation counter is a 32-bit `int`, so over
`2^32 + 1` iterations with no quit requested the identifier assigned at
iteration `2^32` is again 0, the one assigned at iteration 0: the assigned
identifiers are neither all distinct nor strictly increasing, refuting the
claim for an unbounded number of iterations. -/
theorem correlation_identifiers_counterexample :
    ((clientLoop sampleClientFlags (fun _ => sampleOutcome) (fun _ => false)
        4294967297).1.map IterRecord.log_id).get? 0 = some 0 ∧
    ((clientLoop sampleClientFlags (fun _ => sampleOutcome) (fun _ => false)
        4294967297).1.map IterRecord.log_id).get? 4294967296 = some 0 ∧
    ¬ ((clientLoop sampleClientFlags (fun _ => sampleOutcome)
        (fun _ => false) 4294967297).1.map IterRecord.log_id).Nodup ∧
    ¬ List.Pairwise (fun a b => a < b)
      ((clientLoop sampleClientFlags (fun _ => sampleOutcome)
          (fun _ => false) 4294967297).1.map IterRecord.log_id) := by
  have hids : (clientLoop sampleClientFlags (fun _ => sampleOutcome)
        (fun _ => false) 4294967297).1.map IterRecord.log_id
      = (List.range 4294967297).map (fun k : Nat => wrap32 (k : Int)) := by
    unfold clientLoop
    rw [clientLoopAux_records_eq sampleClientFlags (fun _ => sampleOutcome)
      (fun _ => false) 4294967297 0 0 (fun _ _ => rfl)]
    rw [List.map_map]
    apply List.map_congr_left
    intro k _
    show advanceLogId 0 k = wrap32 (k : Int)
    exact advanceLogId_from_zero k
  have hget0 : ((clientLoop sampleClientFlags (fun _ => sampleOutcome)
        (fun _ => false) 4294967297).1.map IterRecord.log_id).get? 0
      = some 0 := by
    rw [hids, List.get?_map, List.get?_range (by norm_num)]
    norm_num [wrap32]
  have hget1 : ((clientLoop sampleClientFlags (fun _ => sampleOutcome)
        (fun _ => false) 4294967297).1.map IterRecord.log_id).get? 4294967296
      = some 0 := by
    rw [hids, List.get?_map, List.get?_range (by norm_num)]
    norm_num [wrap32]
  have hlen : ((clientLoop sampleClientFlags (fun _ => sampleOutcome)
        (fun _ => false) 4294967297).1.map IterRecord.log_id).length
      = 4294967297 := by
    rw [hids, List.length_map, List.length_range]
  have hnd : ¬ ((clientLoop sampleClientFlags (fun _ => sampleOutcome)
      (fun _ => false) 4294967297).1.map IterRecord.log_id).Nodup := by
    intro hnodup
    exact List.nodup_iff_get?_ne_get?.mp hnodup 0 4294967296 (by norm_num)
      (by rw [hlen]; norm_num) (by rw [hget0, hget1])
  refine ⟨hget0, hget1, hnd, fun hpw => hnd (hpw.imp fun h => ne_of_lt h)⟩

/-- C3 (amended): over `N ≤ 2^31` iterations of the client loop with no quit
requested — before the 32-bit counter can overflow — `N` requests are sent
and the `N` correlation identifiers assigned are exactly `0, 1, ..., N-1`:
strictly increasing by 1 from 0 and none reused. -/
theorem correlation_identifiers_strictly_increasing (flags : ClientFlags)
    (o : Nat → CallOutcome) (q : Nat → Bool) (N : Nat)
    (hq : ∀ i, i < N → q i = false) (hN : N ≤ 2147483648) :
    (clientLoop flags o q N).1.length = N ∧
    (clientLoop flags o q N).1.map IterRecord.log_id
      = (List.range N).map (fun k : Nat => (k : Int)) ∧
    List.Pairwise (fun a b => a < b)
      ((clientLoop flags o q N).1.map IterRecord.log_id) ∧
    ((clientLoop flags o q N).1.map IterRecord.log_id).Nodup := by
  have hrec := clientLoopAux_records_eq flags o q N 0 0
    (fun k hk => by simpa using hq k hk)
  unfold clientLoop
  rw [hrec]
  have hmap : ((List.range N).map
      (fun k : Nat => clientTick flags (advanceLogId 0 k) (o (0 + k)))).map
        IterRecord.log_id
      = (List.range N).map (fun k : Nat => (k : Int)) := by
    rw [List.map_map]
    apply List.map_congr_left
    intro k hk
    have hkN : k < N := List.mem_range.mp hk
    have hself : wrap32 ((k : Nat) : Int) = (k : Int) :=
      wrap32_eq_self _ (Int.natCast_nonneg k)
        (by exact_mod_cast lt_of_lt_of_le hkN hN)
    exact (advanceLogId_from_zero k).trans hself
  rw [hmap]
  have hpw : List.Pairwise (fun a b => a < b)
      ((List.range N).map (fun k : Nat => (k : Int))) := by
    rw [List.pairwise_map]
    refine List.Pairwise.imp ?_ (List.pairwise_lt_range N)
    intro a b hab
    exact_mod_cast hab
  refine ⟨by simp, rfl, hpw, ?_⟩
  exact hpw.imp (fun h => ne_of_lt h)

/-- Witness for the amended C3 at `N = 3` with concrete flags, outcomes and
quit schedule. -/
theorem correlation_identifiers_witness :
    (clientLoop sampleClientFlags (fun _ => sampleOutcome)
        (fun _ => false) 3).1.length = 3 ∧
    (clientLoop sampleClientFlags (fun _ => sampleOutcome)
        (fun _ => false) 3).1.map IterRecord.log_id
      = (List.range 3).map (fun k : Nat => (k : Int)) ∧
    List.Pairwise (fun a b => a < b)
      ((clientLoop sampleClientFlags (fun _ => sampleOutcome)
          (fun _ => false) 3).1.map IterRecord.log_id) ∧
    ((clientLoop sampleClientFlags (fun _ => sampleOutcome)
        (fun _ => false) 3).1.map IterRecord.log_id).Nodup :=
  correlation_identifiers_strictly_increasing sampleClientFlags
    (fun _ => sampleOutcome) (fun _ => false) 3 (fun _ _ => rfl)
    (by norm_num)

/-- C5: a failed call is reported as a WARNING log carrying the error text,
and the loop is unaffected: with no quit requested it runs its `fuel`
iterations whatever the outcomes are (the same number as under any other
outcome schedule) and never terminates on its own. -/
theorem failed_call_logged_loop_continues (flags : ClientFlags) (l : Int)
    (out : CallOutcome) (o o2 : Nat → CallOutcome) (q : Nat → Bool)
    (fuel i : Nat) (hfail : out.failed = true) (hq : ∀ k, q k = false) :
    (clientTick flags l out).logEntry = LogEntry.warning out.error_text ∧
    (clientLoopAux flags o q fuel i l).1.length = fuel ∧
    (clientLoopAux flags o2 q fuel i l).1.length
      = (clientLoopAux flags o q fuel i l).1.length ∧
    (clientLoop flags o q fuel).2.2 = false := by
  refine ⟨?_, ?_, ?_, ?_⟩
  · simp [clientTick, hfail]
  · exact (clientLoopAux_len_eq flags o q hq fuel i l).1
  · rw [(clientLoopAux_len_eq flags o2 q hq fuel i l).1,
      (clientLoopAux_len_eq flags o q hq fuel i l).1]
  · exact (clientLoopAux_len_eq flags o q hq fuel 0 0).2

/-- Witness for C5: a concrete timed-out call in a loop of two iterations. -/
theorem failed_call_logged_witness :
    (clientTick sampleClientFlags 0 failedOutcome).logEntry
      = LogEntry.warning failedOutcome.error_text ∧
    (clientLoopAux sampleClientFlags (fun _ => failedOutcome)
        (fun _ => false) 2 0 0).1.length = 2 ∧
    (clientLoopAux sampleClientFlags (fun _ => sampleOutcome)
        (fun _ => false) 2 0 0).1.length
      = (clientLoopAux sampleClientFlags (fun _ => failedOutcome)
          (fun _ => false) 2 0 0).1.length ∧
    (clientLoop sampleClientFlags (fun _ => failedOutcome)
        (fun _ => false) 2).2.2 = false :=
  failed_call_logged_loop_continues sampleClientFlags 0 failedOutcome
    (fun _ => failedOutcome) (fun _ => sampleOutcome) (fun _ => false) 2 0
    rfl (fun _ => rfl)

/-- C6: every tick builds a fresh request whose payload is exactly
"hello world", sets the fresh controller's request attachment to the
configured attachment bytes, claims the given correlation id, and passes a
NULL `done` so the call blocks synchronously. -/
theorem tick_builds_fresh_request (flags : ClientFlags) (l : Int)
    (out : CallOutcome) :
    (clientTick flags l out).request = { message := "hello world" } ∧
    (clientTick flags l out).request_attachment = flags.attachment ∧
    (clientTick flags l out).done_arg = none ∧
    (clientTick flags l out).log_id = l := by
  refine ⟨rfl, ?_, rfl, rfl⟩
  simp [clientTick]

/-- C7: exit codes: the client exits 0 exactly when `channel.Init` succeeded
and -1 exactly when it failed; the server exits 0 exactly when startup
(add-service, listen-address resolution, start) succeeded, exits -1 exactly
when any of those failed, and enters its serve loop exactly on success. -/
theorem process_exit_codes (r : Int) (cf : ClientFlags)
    (o : Nat → CallOutcome) (q : Nat → Bool) (fuel : Nat)
    (flags : ServerFlags) (a : Int) (p : String → Option EndPoint)
    (s : EndPoint → Int → Int) :
    ((clientMain r cf o q fuel).1 = 0 ↔ r = 0) ∧
    ((clientMain r cf o q fuel).1 = -1 ↔ r ≠ 0) ∧
    ((serverMain flags a p s).exitCode = 0 ↔ serverStartupOk flags a p s) ∧
    ((serverMain flags a p s).exitCode = -1
      ↔ ¬ serverStartupOk flags a p s) ∧
    ((serverMain flags a p s).serveEntered = true
      ↔ serverStartupOk flags a p s) := by
  have hclient0 : (clientMain r cf o q fuel).1 = 0 ↔ r = 0 := by
    by_cases hr : r = 0 <;> simp [clientMain, hr]
  have hclient1 : (clientMain r cf o q fuel).1 = -1 ↔ r ≠ 0 := by
    by_cases hr : r = 0 <;> simp [clientMain, hr]
  have hserver : ((serverMain flags a p s).exitCode = 0
        ↔ serverStartupOk flags a p s) ∧
      ((serverMain flags a p s).exitCode = -1
        ↔ ¬ serverStartupOk flags a p s) ∧
      ((serverMain flags a p s).serveEntered = true
        ↔ serverStartupOk flags a p s) := by
    by_cases ha : a = 0
    · cases hp : resolveListenPoint flags p with
      | none => simp [serverMain, serverStartupOk, ha, hp]
      | some pt =>
        by_cases hs : s pt flags.idle_timeout_s = 0 <;>
          simp [serverMain, serverStartupOk, ha, hp, hs]
    · simp [serverMain, serverStartupOk, ha]
  exact ⟨hclient0, hclient1, hserver.1, hserver.2.1, hserver.2.2⟩

/-- Witness for C7 at concrete inputs: successful client init and a server
whose startup succeeds on the default port. -/
theorem process_exit_codes_witness :
    ((clientMain 0 sampleClientFlags (fun _ => sampleOutcome)
        (fun _ => false) 1).1 = 0 ↔ (0 : Int) = 0) ∧
    ((clientMain 0 sampleClientFlags (fun _ => sampleOutcome)
        (fun _ => false) 1).1 = -1 ↔ (0 : Int) ≠ 0) ∧
    ((serverMain badAddrServerFlags 0 (fun _ => none)
        (fun _ _ => 0)).exitCode = 0
      ↔ serverStartupOk badAddrServerFlags 0 (fun _ => none)
          (fun _ _ => 0)) ∧
    ((serverMain badAddrServerFlags 0 (fun _ => none)
        (fun _ _ => 0)).exitCode = -1
      ↔ ¬ serverStartupOk badAddrServerFlags 0 (fun _ => none)
          (fun _ _ => 0)) ∧
    ((serverMain badAddrServerFlags 0 (fun _ => none)
        (fun _ _ => 0)).serveEntered = true
      ↔ serverStartupOk badAddrServerFlags 0 (fun _ => none)
          (fun _ _ => 0)) :=
  process_exit_codes 0 sampleClientFlags (fun _ => sampleOutcome)
    (fun _ => false) 1 badAddrServerFlags 0 (fun _ => none) (fun _ _ => 0)

/-- C8: when the explicit listen address is non-empty, a parse failure makes
the server exit -1 without entering its serve loop, and the port flag is
ignored: changing it does not change the server run at all. -/
theorem invalid_listen_addr_exits_before_serve (flags : ServerFlags)
    (a : Int) (p : String → Option EndPoint) (s : EndPoint → Int → Int)
    (q : Int) (h1 : flags.listen_addr ≠ "") :
    (p flags.listen_addr = none →
      (serverMain flags a p s).exitCode = -1 ∧
      (serverMain flags a p s).serveEntered = false) ∧
    serverMain { flags with port := q } a p s = serverMain flags a p s := by
  constructor
  · intro hp
    have hres : resolveListenPoint flags p = none := by
      simp [resolveListenPoint, h1, hp]
    by_cases ha : a = 0 <;> simp [serverMain, ha, hres]
  · have hres : resolveListenPoint { flags with port := q } p
        = resolveListenPoint flags p := by
      simp [resolveListenPoint, h1]
    simp [serverMain, hres]

/-- Witness for C8: a concrete malformed address that fails to parse, with a
changed port flag. -/
theorem invalid_listen_addr_witness :
    ((serverMain badAddrServerFlags 0 (fun _ => none)
        (fun _ _ => 0)).exitCode = -1 ∧
      (serverMain badAddrServerFlags 0 (fun _ => none)
        (fun _ _ => 0)).serveEntered = false) ∧
    serverMain { badAddrServerFlags with port := 9999 } 0 (fun _ => none)
        (fun _ _ => 0)
      = serverMain badAddrServerFlags 0 (fun _ => none) (fun _ _ => 0) :=
  ⟨(invalid_listen_addr_exits_before_serve badAddrServerFlags 0
      (fun _ => none) (fun _ _ => 0) 9999 (by decide)).1 rfl,
    (invalid_listen_addr_exits_before_serve badAddrServerFlags 0
      (fun _ => none) (fun _ _ => 0) 9999 (by decide)).2⟩

end BrpcEcho
